import Mathlib

/-!
Verification of the QuickDesk help-desk backend core (ticket lifecycle,
vote ledger, access policy, query engine) against its natural-language
specification.  The definitions below are a shallow embedding of
`src/Server/models.py`, `src/Server/services.py` and the relevant
endpoints of `src/Server/api.py`:

* SQLAlchemy rows become Lean structures; the database session becomes an
  explicit `DB` state record holding lists of rows.
* `datetime.utcnow()` becomes an explicit `now : Nat` argument.
* Python truthiness on optional ids / strings is modelled explicitly
  (`none` and `some 0` / `some ""` are falsy, as in the source).
* In-place mutation of the row returned by `.first()` is modelled by
  `updateFirst` (replace the first matching element of the list);
  `session.delete(row)` on that row becomes `deleteFirst`.
* Autoincrement primary keys are modelled by a single `nextId` counter.
-/

namespace QuickDesk

/-- `models.py` `UserRole` -/
inductive UserRole where
  | END_USER
  | SUPPORT_AGENT
  | ADMIN
deriving Repr, DecidableEq

/-- `models.py` `TicketStatus` -/
inductive TicketStatus where
  | OPEN
  | IN_PROGRESS
  | RESOLVED
  | CLOSED
deriving Repr, DecidableEq

/-- `models.py` `TicketPriority` -/
inductive TicketPriority where
  | LOW
  | MEDIUM
  | HIGH
  | URGENT
deriving Repr, DecidableEq

/-- `.value` of `UserRole` -/
def roleValue : UserRole → String
  | .END_USER => "end_user"
  | .SUPPORT_AGENT => "support_agent"
  | .ADMIN => "admin"

/-- `.value` of `TicketStatus` -/
def statusValue : TicketStatus → String
  | .OPEN => "open"
  | .IN_PROGRESS => "in_progress"
  | .RESOLVED => "resolved"
  | .CLOSED => "closed"

/-- `.value` of `TicketPriority` -/
def priorityValue : TicketPriority → String
  | .LOW => "low"
  | .MEDIUM => "medium"
  | .HIGH => "high"
  | .URGENT => "urgent"

/-- `models.py` `User` row (password hash omitted: opaque to the core). -/
structure User where
  id : Nat
  username : String
  email : String
  full_name : String
  role : UserRole
  is_active : Bool
  created_at : Nat
  updated_at : Nat
deriving Repr, DecidableEq

/-- `models.py` `Category` row -/
structure Category where
  id : Nat
  name : String
  description : String
  color : String
  is_active : Bool
  created_at : Nat
deriving Repr, DecidableEq

/-- `models.py` `Ticket` row.  `upvotes`/`downvotes` are Python ints
(modelled as `Int`; the code clamps decrements with `max(0, ...)`). -/
structure Ticket where
  id : Nat
  subject : String
  description : String
  status : TicketStatus
  priority : TicketPriority
  created_by_id : Nat
  assigned_to_id : Option Nat
  category_id : Nat
  created_at : Nat
  updated_at : Nat
  resolved_at : Option Nat
  closed_at : Option Nat
  upvotes : Int
  downvotes : Int
deriving Repr, DecidableEq

/-- `models.py` `Ticket.vote_score` property -/
def Ticket.vote_score (t : Ticket) : Int :=
  t.upvotes - t.downvotes

/-- `models.py` `TicketComment` row -/
structure TicketComment where
  id : Nat
  content : String
  is_internal : Bool
  ticket_id : Nat
  author_id : Nat
  created_at : Nat
  updated_at : Nat
deriving Repr, DecidableEq

/-- `models.py` `TicketAttachment` row (file bytes are external). -/
structure TicketAttachment where
  id : Nat
  filename : String
  original_filename : String
  file_size : Nat
  mime_type : String
  ticket_id : Nat
  uploaded_by_id : Nat
  created_at : Nat
deriving Repr, DecidableEq

/-- `models.py` `TicketVote` row -/
structure TicketVote where
  id : Nat
  is_upvote : Bool
  ticket_id : Nat
  user_id : Nat
  created_at : Nat
  updated_at : Nat
deriving Repr, DecidableEq

/-- `models.py` `Notification` row -/
structure Notification where
  id : Nat
  title : String
  message : String
  notification_type : String
  is_read : Bool
  is_email_sent : Bool
  user_id : Nat
  ticket_id : Option Nat
  created_at : Nat
deriving Repr, DecidableEq

/-- The database state: one list of rows per table, plus the
autoincrement counter for freshly inserted rows. -/
structure DB where
  users : List User
  categories : List Category
  tickets : List Ticket
  comments : List TicketComment
  attachments : List TicketAttachment
  votes : List TicketVote
  notifications : List Notification
  nextId : Nat
deriving Repr, DecidableEq

/-! ### List helpers modelling session behaviour -/

/-- Replace the first element satisfying `p` by its image under `f`
(models in-place mutation of the row returned by `.first()`). -/
def updateFirst (p : α → Bool) (f : α → α) : List α → List α
  | [] => []
  | x :: xs => if p x then f x :: xs else x :: updateFirst p f xs

/-- Remove the first element satisfying `p`
(models `session.delete(row)` for the row returned by `.first()`). -/
def deleteFirst (p : α → Bool) : List α → List α
  | [] => []
  | x :: xs => if p x then xs else x :: deleteFirst p xs

/-- Python truthiness of an optional integer id (`None` and `0` falsy). -/
def truthyId : Option Nat → Bool
  | none => false
  | some n => n != 0

/-- Python truthiness of an optional string (`None` and `""` falsy). -/
def truthyStr : Option String → Bool
  | none => false
  | some s => !s.isEmpty

/-- Case-insensitive substring test on rendered characters
(models SQL `ilike "%pat%"`): prefix test. -/
def charsPrefix : List Char → List Char → Bool
  | [], _ => true
  | _ :: _, [] => false
  | a :: as, b :: bs => a == b && charsPrefix as bs

/-- Substring occurrence test over character lists. -/
def charsContains (pat : List Char) : List Char → Bool
  | [] => pat.isEmpty
  | c :: rest => charsPrefix pat (c :: rest) || charsContains pat rest

/-- `column.ilike(f"%{pat}%")`: case-insensitive substring match. -/
def ilikeContains (hay pat : String) : Bool :=
  charsContains pat.toLower.data hay.toLower.data

/-! ### Row lookups (`query(...).filter_by(...).first()`) -/

/-- `db.query(Ticket).filter_by(id=ticket_id).first()` -/
def findTicket (db : DB) (tid : Nat) : Option Ticket :=
  db.tickets.find? (fun t => t.id == tid)

/-- `db.query(User).filter_by(id=user_id).first()` -/
def findUser (db : DB) (uid : Nat) : Option User :=
  db.users.find? (fun u => u.id == uid)

/-- `db.query(Category).filter_by(id=cid).first()` (without the
`is_active` restriction: this is the relationship lookup). -/
def findCategory (db : DB) (cid : Nat) : Option Category :=
  db.categories.find? (fun c => c.id == cid)

/-- `db.query(TicketVote).filter_by(ticket_id=..., user_id=...).first()` -/
def findVote (db : DB) (tid uid : Nat) : Option TicketVote :=
  db.votes.find? (fun v => v.ticket_id == tid && v.user_id == uid)

/-- Mutate the (first) ticket row with id `tid` in place. -/
def updTicket (db : DB) (tid : Nat) (f : Ticket → Ticket) : DB :=
  { db with tickets := updateFirst (fun t => t.id == tid) f db.tickets }

/-- ORM relationship `ticket.comments`. -/
def ticketComments (db : DB) (tid : Nat) : List TicketComment :=
  db.comments.filter (fun c => c.ticket_id == tid)

/-- ORM relationship `ticket.attachments`. -/
def ticketAttachments (db : DB) (tid : Nat) : List TicketAttachment :=
  db.attachments.filter (fun a => a.ticket_id == tid)

/-- `models.py` `Ticket.comment_count` property (`len(self.comments)`). -/
def comment_count (db : DB) (t : Ticket) : Nat :=
  (ticketComments db t.id).length

/-! ### NotificationService (`services.py`) -/

/-- `NotificationService.create_notification`: inserts a `Notification`
row; the email step marks `is_email_sent` when the addressee user row
exists (`query(User).filter_by(id=user_id).first()`). -/
def create_notification (db : DB) (now : Nat) (user_id : Nat)
    (title message notification_type : String) (ticket_id : Option Nat) : DB :=
  let n : Notification :=
    { id := db.nextId, title, message, notification_type,
      is_read := false, is_email_sent := (findUser db user_id).isSome,
      user_id, ticket_id, created_at := now }
  { db with notifications := db.notifications ++ [n], nextId := db.nextId + 1 }

/-- Users notified on ticket creation: active admins and support agents
(`User.role.in_([ADMIN, SUPPORT_AGENT])`, `User.is_active == True`). -/
def staffToNotify (db : DB) : List User :=
  db.users.filter (fun u =>
    (u.role == UserRole.ADMIN || u.role == UserRole.SUPPORT_AGENT) && u.is_active)

/-- Title of the "ticket created" notification. -/
def ticketCreatedTitle (t : Ticket) : String :=
  "New Ticket Created: " ++ t.subject

/-- Message of the "ticket created" notification
(`ticket.creator.full_name`, `ticket.category.name`). -/
def ticketCreatedMessage (db : DB) (t : Ticket) : String :=
  let creatorName := ((findUser db t.created_by_id).map User.full_name).getD ""
  let categoryName := ((findCategory db t.category_id).map Category.name).getD ""
  "A new ticket has been created by " ++ creatorName ++ ". Category: " ++ categoryName

/-- `NotificationService.create_ticket_notification`: one notification
per active admin/support agent. -/
def create_ticket_notification (db : DB) (now : Nat) (t : Ticket) : DB :=
  (staffToNotify db).foldl
    (fun d u =>
      create_notification d now u.id (ticketCreatedTitle t)
        (ticketCreatedMessage db t) "ticket_created" (some t.id))
    db

/-- Message of the "status changed" notification. -/
def statusChangedMessage (old_status new_status : TicketStatus) : String :=
  let os := statusValue old_status
  let ns := statusValue new_status
  "Your ticket status has been changed from " ++ os ++ " to " ++ ns

/-- `NotificationService.create_status_change_notification`: addressed
to the ticket creator, carrying old and new status values. -/
def create_status_change_notification (db : DB) (now : Nat) (t : Ticket)
    (old_status new_status : TicketStatus) : DB :=
  create_notification db now t.created_by_id
    ("Ticket Status Updated: " ++ t.subject)
    (statusChangedMessage old_status new_status)
    "status_changed" (some t.id)

/-- `NotificationService.create_comment_notification`: only for
non-internal comments not authored by the ticket creator. -/
def create_comment_notification (db : DB) (now : Nat) (t : Ticket)
    (c : TicketComment) : DB :=
  if !c.is_internal then
    if c.author_id != t.created_by_id then
      let authorName := ((findUser db c.author_id).map User.full_name).getD ""
      create_notification db now t.created_by_id
        ("New Comment on Ticket: " ++ t.subject)
        (authorName ++ " has added a comment to your ticket")
        "comment_added" (some t.id)
    else db
  else db

/-! ### TicketService (`services.py`) -/

/-- `TicketService.create_ticket`: inserts a ticket with
`status=OPEN` and the model column defaults (`upvotes=0`, `downvotes=0`,
`resolved_at`/`closed_at` null, timestamps `utcnow`), then fans out the
"ticket created" notification. -/
def create_ticket (db : DB) (now : Nat) (subject description : String)
    (category_id created_by_id : Nat) (priority : TicketPriority) :
    DB × Ticket :=
  let t : Ticket :=
    { id := db.nextId, subject, description,
      status := TicketStatus.OPEN, priority,
      created_by_id, assigned_to_id := none, category_id,
      created_at := now, updated_at := now,
      resolved_at := none, closed_at := none,
      upvotes := 0, downvotes := 0 }
  let db1 : DB := { db with tickets := db.tickets ++ [t], nextId := db.nextId + 1 }
  (create_ticket_notification db1 now t, t)

/-- The filter pipeline of `TicketService.get_tickets` (visibility by
role, then status, category and search filters), before `count()`,
ordering and pagination. -/
def filteredTickets (db : DB) (user_id : Option Nat) (user_role : Option UserRole)
    (status : Option TicketStatus) (category_id : Option Nat)
    (search : Option String) : List Ticket :=
  let q := db.tickets
  let q := if user_role == some UserRole.END_USER && truthyId user_id then
      q.filter (fun t => some t.created_by_id == user_id)
    else q
  let q := match status with
    | some st => q.filter (fun t => t.status == st)
    | none => q
  let q := if truthyId category_id then
      q.filter (fun t => some t.category_id == category_id)
    else q
  let q := match search with
    | some s =>
      if s.isEmpty then q
      else q.filter (fun t => ilikeContains t.subject s || ilikeContains t.description s)
    | none => q
  q

/-- Comparison used by `order_by` on a plain ticket column resolved by
name (`hasattr(Ticket, sort_by)` / `getattr`); `none` when the name is
not a ticket column (source: silently no ordering).  Enum columns
compare by their stored name, nullable columns put `NULL` first. -/
def columnOrd (name : String) : Option (Ticket → Ticket → Ordering) :=
  let optNatOrd : Option Nat → Option Nat → Ordering := fun a b =>
    match a, b with
    | none, none => Ordering.eq
    | none, some _ => Ordering.lt
    | some _, none => Ordering.gt
    | some x, some y => compare x y
  match name with
  | "id" => some (fun a b => compare a.id b.id)
  | "subject" => some (fun a b => compare a.subject b.subject)
  | "description" => some (fun a b => compare a.description b.description)
  | "status" => some (fun a b => compare (statusValue a.status) (statusValue b.status))
  | "priority" => some (fun a b => compare (priorityValue a.priority) (priorityValue b.priority))
  | "created_by_id" => some (fun a b => compare a.created_by_id b.created_by_id)
  | "assigned_to_id" => some (fun a b => optNatOrd a.assigned_to_id b.assigned_to_id)
  | "category_id" => some (fun a b => compare a.category_id b.category_id)
  | "created_at" => some (fun a b => compare a.created_at b.created_at)
  | "updated_at" => some (fun a b => compare a.updated_at b.updated_at)
  | "resolved_at" => some (fun a b => optNatOrd a.resolved_at b.resolved_at)
  | "closed_at" => some (fun a b => optNatOrd a.closed_at b.closed_at)
  | "upvotes" => some (fun a b => compare a.upvotes b.upvotes)
  | "downvotes" => some (fun a b => compare a.downvotes b.downvotes)
  | _ => none

/-- The comparison selected by `sort_by`: `"votes"` compares
`upvotes - downvotes`, `"replies"` compares the aggregate comment
count, otherwise a plain column (or no ordering). -/
def sortOrd (db : DB) (sort_by : String) : Option (Ticket → Ticket → Ordering) :=
  if sort_by == "votes" then
    some (fun a b => compare (a.upvotes - a.downvotes) (b.upvotes - b.downvotes))
  else if sort_by == "replies" then
    some (fun a b => compare (comment_count db a) (comment_count db b))
  else columnOrd sort_by

/-- Insert into a list sorted by `le` (model of the store's ordering). -/
def insertSorted (le : α → α → Bool) (a : α) : List α → List α
  | [] => [a]
  | b :: bs => if le a b then a :: b :: bs else b :: insertSorted le a bs

/-- Sort by `le` (model of `order_by`). -/
def sortBy (le : α → α → Bool) : List α → List α
  | [] => []
  | a :: as => insertSorted le a (sortBy le as)

/-- `order_by` step of `get_tickets`: ascending for any `sort_order`
other than `"desc"`, descending for `"desc"`; identity when the sort
key is unknown. -/
def sortTickets (db : DB) (sort_by sort_order : String) (l : List Ticket) :
    List Ticket :=
  match sortOrd db sort_by with
  | none => l
  | some ord =>
    if sort_order == "desc" then
      sortBy (fun a b => ord a b != Ordering.lt) l
    else
      sortBy (fun a b => ord a b != Ordering.gt) l

/-! ### `to_dict` payloads (`models.py`) -/

/-- `User.to_dict()` -/
structure UserDict where
  id : Nat
  username : String
  email : String
  full_name : String
  role : String
  is_active : Bool
  created_at : Option Nat
deriving Repr, DecidableEq

/-- `models.py` `User.to_dict` -/
def User.to_dict (u : User) : UserDict :=
  { id := u.id, username := u.username, email := u.email,
    full_name := u.full_name, role := roleValue u.role,
    is_active := u.is_active, created_at := some u.created_at }

/-- `Category.to_dict()` -/
structure CategoryDict where
  id : Nat
  name : String
  description : String
  color : String
  is_active : Bool
deriving Repr, DecidableEq

/-- `models.py` `Category.to_dict` -/
def Category.to_dict (c : Category) : CategoryDict :=
  { id := c.id, name := c.name, description := c.description,
    color := c.color, is_active := c.is_active }

/-- `TicketComment.to_dict()` (author fields resolved through the
`author` relationship). -/
structure CommentDict where
  id : Nat
  content : String
  is_internal : Bool
  ticket_id : Nat
  author_id : Nat
  author_name : Option String
  author_role : Option String
  created_at : Option Nat
  updated_at : Option Nat
deriving Repr, DecidableEq

/-- `models.py` `TicketComment.to_dict` -/
def TicketComment.to_dict (db : DB) (c : TicketComment) : CommentDict :=
  { id := c.id, content := c.content, is_internal := c.is_internal,
    ticket_id := c.ticket_id, author_id := c.author_id,
    author_name := (findUser db c.author_id).map User.full_name,
    author_role := (findUser db c.author_id).map (fun u => roleValue u.role),
    created_at := some c.created_at, updated_at := some c.updated_at }

/-- `TicketAttachment.to_dict()` -/
structure AttachmentDict where
  id : Nat
  filename : String
  original_filename : String
  file_size : Nat
  mime_type : String
  ticket_id : Nat
  uploaded_by : Option String
  created_at : Option Nat
deriving Repr, DecidableEq

/-- `models.py` `TicketAttachment.to_dict` -/
def TicketAttachment.to_dict (db : DB) (a : TicketAttachment) : AttachmentDict :=
  { id := a.id, filename := a.filename,
    original_filename := a.original_filename, file_size := a.file_size,
    mime_type := a.mime_type, ticket_id := a.ticket_id,
    uploaded_by := (findUser db a.uploaded_by_id).map User.full_name,
    created_at := some a.created_at }

/-- `Ticket.to_dict(include_relations)`: the fields after the common
block depend on the mode, so the mode-dependent ones are `Option`-valued
(`none` = key absent from the Python dict). -/
structure TicketDict where
  id : Nat
  subject : String
  description : String
  status : String
  priority : String
  created_at : Option Nat
  updated_at : Option Nat
  resolved_at : Option Nat
  closed_at : Option Nat
  upvotes : Int
  downvotes : Int
  vote_score : Int
  comment_count : Nat
  creator : Option (Option UserDict) := none
  assignee : Option (Option UserDict) := none
  category : Option (Option CategoryDict) := none
  comments : Option (List CommentDict) := none
  attachments : Option (List AttachmentDict) := none
  created_by_id : Option Nat := none
  assigned_to_id : Option (Option Nat) := none
  category_id : Option Nat := none
  creator_name : Option (Option String) := none
  assignee_name : Option (Option String) := none
  category_name : Option (Option String) := none
deriving Repr, DecidableEq

/-- `models.py` `Ticket.to_dict`; in full mode (`include_relations`)
the `comments` list is the unfiltered `self.comments` relationship. -/
def Ticket.to_dict (db : DB) (t : Ticket) (include_relations : Bool) : TicketDict :=
  let base : TicketDict :=
    { id := t.id, subject := t.subject, description := t.description,
      status := statusValue t.status, priority := priorityValue t.priority,
      created_at := some t.created_at, updated_at := some t.updated_at,
      resolved_at := t.resolved_at, closed_at := t.closed_at,
      upvotes := t.upvotes, downvotes := t.downvotes,
      vote_score := t.vote_score, comment_count := comment_count db t }
  if include_relations then
    { base with
      creator := some ((findUser db t.created_by_id).map User.to_dict),
      assignee := some ((t.assigned_to_id.bind (findUser db)).map User.to_dict),
      category := some ((findCategory db t.category_id).map Category.to_dict),
      comments := some ((ticketComments db t.id).map (TicketComment.to_dict db)),
      attachments := some ((ticketAttachments db t.id).map (TicketAttachment.to_dict db)) }
  else
    { base with
      created_by_id := some t.created_by_id,
      assigned_to_id := some t.assigned_to_id,
      category_id := some t.category_id,
      creator_name := some ((findUser db t.created_by_id).map User.full_name),
      assignee_name := some ((t.assigned_to_id.bind (findUser db)).map User.full_name),
      category_name := some ((findCategory db t.category_id).map Category.name) }

/-- Result dict of `TicketService.get_tickets`. -/
structure TicketListResult where
  tickets : List TicketDict
  total_count : Nat
  limit : Nat
  offset : Nat
  has_more : Bool
deriving Repr, DecidableEq

/-- `TicketService.get_tickets`: visibility and filters, `count()`
before ordering and pagination, then `offset`/`limit` and summary-mode
`to_dict`; `has_more = (offset + limit) < total_count`. -/
def get_tickets (db : DB) (user_id : Option Nat) (user_role : Option UserRole)
    (status : Option TicketStatus) (category_id : Option Nat)
    (search : Option String) (sort_by sort_order : String)
    (limit offset : Nat) : TicketListResult :=
  let q := filteredTickets db user_id user_role status category_id search
  let total_count := q.length
  let sorted := sortTickets db sort_by sort_order q
  let page := (sorted.drop offset).take limit
  { tickets := page.map (fun t => Ticket.to_dict db t false),
    total_count, limit, offset,
    has_more := decide (offset + limit < total_count) }

/-- `TicketService.get_ticket_by_id`: lookup, then the end-user
ownership check (`ticket.created_by_id != user_id` → `None`,
i.e. denial reads as not-found). -/
def get_ticket_by_id (db : DB) (ticket_id : Nat) (user_id : Option Nat)
    (user_role : Option UserRole) : Option Ticket :=
  match findTicket db ticket_id with
  | none => none
  | some t =>
    if user_role == some UserRole.END_USER then
      if some t.created_by_id != user_id then none else some t
    else some t

/-- `TicketService.update_ticket_status`: set status and `updated_at`,
stamp `resolved_at` on RESOLVED and `closed_at` on CLOSED, notify the
creator when the status actually changed.  Returns the updated row. -/
def update_ticket_status (db : DB) (now : Nat) (ticket_id : Nat)
    (status : TicketStatus) : Option (DB × Ticket) :=
  match findTicket db ticket_id with
  | none => none
  | some ticket =>
    let old_status := ticket.status
    let t1 := { ticket with status := status, updated_at := now }
    let t2 :=
      if status == TicketStatus.RESOLVED then { t1 with resolved_at := some now }
      else if status == TicketStatus.CLOSED then { t1 with closed_at := some now }
      else t1
    let db1 := updTicket db ticket_id (fun _ => t2)
    let db2 :=
      if old_status != status then
        create_status_change_notification db1 now t2 old_status status
      else db1
    some (db2, t2)

/-- `TicketService.assign_ticket`: set assignee and `updated_at`;
auto-transition OPEN → IN_PROGRESS when the new assignee id is truthy
(`if ticket.status == OPEN and assigned_to_id`). -/
def assign_ticket (db : DB) (now : Nat) (ticket_id : Nat)
    (assigned_to_id : Option Nat) : Option (DB × Ticket) :=
  match findTicket db ticket_id with
  | none => none
  | some ticket =>
    let t1 := { ticket with assigned_to_id := assigned_to_id, updated_at := now }
    let t2 :=
      if t1.status == TicketStatus.OPEN && truthyId assigned_to_id then
        { t1 with status := TicketStatus.IN_PROGRESS }
      else t1
    some (updTicket db ticket_id (fun _ => t2), t2)

/-- `TicketService.add_comment`: insert the comment row, refresh the
ticket's `updated_at`, then run the comment-notification rule. -/
def add_comment (db : DB) (now : Nat) (ticket_id : Nat) (content : String)
    (author_id : Nat) (is_internal : Bool) : Option (DB × TicketComment) :=
  match findTicket db ticket_id with
  | none => none
  | some ticket =>
    let c : TicketComment :=
      { id := db.nextId, content, is_internal, ticket_id, author_id,
        created_at := now, updated_at := now }
    let db1 : DB := { db with comments := db.comments ++ [c], nextId := db.nextId + 1 }
    let db2 := updTicket db1 ticket_id (fun t => { t with updated_at := now })
    some (create_comment_notification db2 now ticket c, c)

/-- Result dict of `TicketService.vote_ticket`. -/
structure VoteResult where
  action : String
  vote_type : String
  upvotes : Int
  downvotes : Int
  vote_score : Int
deriving Repr, DecidableEq

/-- `TicketService.vote_ticket`: look up the (ticket, user) vote, then
remove / change / add, adjusting the denormalized counters (decrements
clamped at 0 by `max(0, ...)`). -/
def vote_ticket (db : DB) (now : Nat) (ticket_id user_id : Nat)
    (is_upvote : Bool) : Option (DB × VoteResult) :=
  match findTicket db ticket_id with
  | none => none
  | some ticket =>
    let isVoteRow : TicketVote → Bool :=
      fun v => v.ticket_id == ticket_id && v.user_id == user_id
    let step : DB × Ticket × String :=
      match findVote db ticket_id user_id with
      | some existing_vote =>
        if existing_vote.is_upvote == is_upvote then
          let db1 : DB := { db with votes := deleteFirst isVoteRow db.votes }
          let t :=
            if is_upvote then
              { ticket with upvotes := max 0 (ticket.upvotes - 1) }
            else
              { ticket with downvotes := max 0 (ticket.downvotes - 1) }
          (updTicket db1 ticket_id (fun _ => t), t, "removed")
        else
          let flip : TicketVote → TicketVote :=
            fun v => { v with is_upvote := is_upvote, updated_at := now }
          let db1 : DB := { db with votes := updateFirst isVoteRow flip db.votes }
          let t :=
            if is_upvote then
              { ticket with upvotes := ticket.upvotes + 1,
                            downvotes := max 0 (ticket.downvotes - 1) }
            else
              { ticket with downvotes := ticket.downvotes + 1,
                            upvotes := max 0 (ticket.upvotes - 1) }
          (updTicket db1 ticket_id (fun _ => t), t, "changed")
      | none =>
        let v : TicketVote :=
          { id := db.nextId, is_upvote, ticket_id, user_id,
            created_at := now, updated_at := now }
        let db1 : DB := { db with votes := db.votes ++ [v], nextId := db.nextId + 1 }
        let t :=
          if is_upvote then { ticket with upvotes := ticket.upvotes + 1 }
          else { ticket with downvotes := ticket.downvotes + 1 }
        (updTicket db1 ticket_id (fun _ => t), t, "added")
    let t' := step.2.1
    some (step.1,
      { action := step.2.2,
        vote_type := if is_upvote then "upvote" else "downvote",
        upvotes := t'.upvotes, downvotes := t'.downvotes,
        vote_score := t'.vote_score })

/-! ### API endpoints (`api.py`): request parsing, permission plumbing.
The auth boundary supplies `(actor_id, actor_role)`; request-body JSON
keys that may be absent are `Option`-valued. -/

/-- `TicketPriority(value)` constructor: `none` on an invalid value. -/
def parsePriority : String → Option TicketPriority
  | "low" => some TicketPriority.LOW
  | "medium" => some TicketPriority.MEDIUM
  | "high" => some TicketPriority.HIGH
  | "urgent" => some TicketPriority.URGENT
  | _ => none

/-- Body of `POST /api/tickets`. -/
structure CreateTicketRequest where
  subject : Option String
  description : Option String
  category_id : Option Nat
  priority : Option String
deriving Repr, DecidableEq

/-- `api.py` `create_ticket` endpoint: checks that the required keys
are PRESENT (`field in data`), parses the priority (absent or falsy
`""` → MEDIUM, invalid → error), then calls the service. -/
def api_create_ticket (db : DB) (now : Nat) (req : CreateTicketRequest)
    (actor_id : Nat) : Except String (DB × Ticket) :=
  if req.subject.isNone || req.description.isNone || req.category_id.isNone then
    Except.error "Missing required fields"
  else
    let prio : Except String TicketPriority :=
      if truthyStr req.priority then
        match parsePriority (req.priority.getD "") with
        | some p => Except.ok p
        | none => Except.error "Invalid priority"
      else Except.ok TicketPriority.MEDIUM
    match prio with
    | Except.error e => Except.error e
    | Except.ok p =>
      Except.ok (create_ticket db now (req.subject.getD "")
        (req.description.getD "") (req.category_id.getD 0) actor_id p)

/-- `api.py` `get_ticket` endpoint: permission-checked fetch, full-mode
payload (`to_dict(include_relations=True)`); denial reads as 404. -/
def api_get_ticket (db : DB) (ticket_id actor_id : Nat)
    (actor_role : UserRole) : Except String TicketDict :=
  match get_ticket_by_id db ticket_id (some actor_id) (some actor_role) with
  | none => Except.error "Ticket not found or access denied"
  | some t => Except.ok (Ticket.to_dict db t true)

/-- `api.py` `add_comment` endpoint: content must be truthy, access is
checked through `get_ticket_by_id`, and `is_internal` is forced to
false unless the actor is an agent/admin. -/
def api_add_comment (db : DB) (now : Nat) (ticket_id actor_id : Nat)
    (actor_role : UserRole) (content : Option String)
    (is_internal : Bool) : Except String (DB × TicketComment) :=
  if !truthyStr content then
    Except.error "Comment content is required"
  else
    match get_ticket_by_id db ticket_id (some actor_id) (some actor_role) with
    | none => Except.error "Ticket not found or access denied"
    | some _ =>
      let internal := is_internal &&
        (actor_role == UserRole.SUPPORT_AGENT || actor_role == UserRole.ADMIN)
      match add_comment db now ticket_id (content.getD "") actor_id internal with
      | none => Except.error "Ticket not found"
      | some r => Except.ok r

/-- `api.py` `vote_ticket` endpoint: only checks that the `is_upvote`
key is present, then calls the service directly — there is no ownership
or role check on this path. -/
def api_vote_ticket (db : DB) (now : Nat) (ticket_id actor_id : Nat)
    (is_upvote : Option Bool) : Except String (DB × VoteResult) :=
  match is_upvote with
  | none => Except.error "Vote type (is_upvote) is required"
  | some b =>
    match vote_ticket db now ticket_id actor_id b with
    | none => Except.error "Ticket not found"
    | some r => Except.ok r

/-! ### Concrete fixture states used by counterexamples and witnesses -/

/-- Fixture: an end user (id 7). -/
def u7 : User :=
  { id := 7, username := "alice", email := "a@x", full_name := "Alice A",
    role := UserRole.END_USER, is_active := true, created_at := 0, updated_at := 0 }

/-- Fixture: a second end user (id 8). -/
def u8 : User :=
  { id := 8, username := "bob", email := "b@x", full_name := "Bob B",
    role := UserRole.END_USER, is_active := true, created_at := 0, updated_at := 0 }

/-- Fixture: an active support agent (id 2). -/
def u2 : User :=
  { id := 2, username := "carol", email := "c@x", full_name := "Carol C",
    role := UserRole.SUPPORT_AGENT, is_active := true, created_at := 0, updated_at := 0 }

/-- Fixture: an active admin (id 3). -/
def u3 : User :=
  { id := 3, username := "dan", email := "d@x", full_name := "Dan D",
    role := UserRole.ADMIN, is_active := true, created_at := 0, updated_at := 0 }

/-- Fixture: a category (id 1). -/
def cat1 : Category :=
  { id := 1, name := "General", description := "", color := "#007bff",
    is_active := true, created_at := 0 }

/-- Fixture: an open ticket (id 1) created by user 8. -/
def t1 : Ticket :=
  { id := 1, subject := "T1", description := "d1",
    status := TicketStatus.OPEN, priority := TicketPriority.MEDIUM,
    created_by_id := 8, assigned_to_id := none, category_id := 1,
    created_at := 1, updated_at := 1, resolved_at := none, closed_at := none,
    upvotes := 0, downvotes := 0 }

/-- Fixture: an open ticket (id 4) created by user 7. -/
def t4 : Ticket :=
  { id := 4, subject := "T4", description := "d4",
    status := TicketStatus.OPEN, priority := TicketPriority.HIGH,
    created_by_id := 7, assigned_to_id := none, category_id := 1,
    created_at := 2, updated_at := 2, resolved_at := none, closed_at := none,
    upvotes := 0, downvotes := 0 }

/-- Fixture: an internal comment (id 5) by the agent on ticket 4. -/
def c5 : TicketComment :=
  { id := 5, content := "internal note", is_internal := true,
    ticket_id := 4, author_id := 2, created_at := 3, updated_at := 3 }

/-- Fixture state: two end users, an agent, an admin, two tickets, one
internal comment. -/
def dbSample : DB :=
  { users := [u7, u8, u2, u3], categories := [cat1],
    tickets := [t1, t4], comments := [c5], attachments := [],
    votes := [], notifications := [], nextId := 10 }

/-- Fixture: two vote rows with the same (ticket, user) key — a value of
the state type that violates ledger uniqueness, showing the storage
model itself imposes no uniqueness constraint. -/
def dbDupVotes : DB :=
  { users := [u7, u8], categories := [cat1], tickets := [t1],
    comments := [], attachments := [],
    votes :=
      [{ id := 20, is_upvote := true, ticket_id := 1, user_id := 7,
         created_at := 0, updated_at := 0 },
       { id := 21, is_upvote := false, ticket_id := 1, user_id := 7,
         created_at := 0, updated_at := 0 }],
    notifications := [], nextId := 30 }

/-- Subject of the ticket a successful creation call returns
(`none` when the call errored). -/
def resultTicketSubject : Except String (DB × Ticket) → Option String
  | Except.ok r => some r.2.subject
  | Except.error _ => none

/-- Action string of a successful vote call (`none` when it errored). -/
def resultVoteAction : Except String (DB × VoteResult) → Option String
  | Except.ok r => some r.2.action
  | Except.error _ => none

/-- Whether a ticket-detail payload contains an internal comment. -/
def payloadHasInternalComment : Except String TicketDict → Bool
  | Except.ok d => (d.comments.getD []).any (fun c => c.is_internal)
  | Except.error _ => false

/-! ### Invariants and derived predicates used by the claims -/

/-- Both denormalized counters of every ticket are non-negative. -/
def countersNonneg (db : DB) : Prop :=
  ∀ t ∈ db.tickets, 0 ≤ t.upvotes ∧ 0 ≤ t.downvotes

instance : DecidablePred countersNonneg := fun db =>
  List.decidableBAll _ db.tickets

/-- The ledger key of a vote row. -/
def voteKey (v : TicketVote) : Nat × Nat :=
  (v.ticket_id, v.user_id)

/-- At most one vote row per (ticket, user) pair. -/
def oneVotePerPair (db : DB) : Prop :=
  (db.votes.map voteKey).Nodup

instance : DecidablePred oneVotePerPair := fun db =>
  List.nodupDecidable (db.votes.map voteKey)

/-- Number of upvote rows of a ticket in the ledger. -/
def countUpvotes (db : DB) (tid : Nat) : Int :=
  ((db.votes.filter (fun v => v.ticket_id == tid && v.is_upvote)).length : Int)

/-- Number of downvote rows of a ticket in the ledger. -/
def countDownvotes (db : DB) (tid : Nat) : Int :=
  ((db.votes.filter (fun v => v.ticket_id == tid && !v.is_upvote)).length : Int)

/-! ### Helper lemmas about the list-level session operations -/

theorem mem_updateFirst {p : α → Bool} {f : α → α} {l : List α} {a : α}
    (h : a ∈ updateFirst p f l) : a ∈ l ∨ ∃ b, b ∈ l ∧ a = f b := by
  induction l with
  | nil => simp [updateFirst] at h
  | cons x xs ih =>
    simp only [updateFirst] at h
    by_cases hp : p x
    · simp [hp] at h
      rcases h with h | h
      · exact Or.inr ⟨x, List.mem_cons_self x xs, h⟩
      · exact Or.inl (List.mem_cons_of_mem x h)
    · simp [hp] at h
      rcases h with h | h
      · exact Or.inl (by simp [h])
      · rcases ih h with h' | ⟨b, hb, rfl⟩
        · exact Or.inl (List.mem_cons_of_mem x h')
        · exact Or.inr ⟨b, List.mem_cons_of_mem x hb, rfl⟩

theorem map_updateFirst {p : α → Bool} {f : α → α} (g : α → β)
    (hfg : ∀ x, g (f x) = g x) (l : List α) :
    (updateFirst p f l).map g = l.map g := by
  induction l with
  | nil => rfl
  | cons x xs ih =>
    simp only [updateFirst]
    by_cases hp : p x
    · simp [hp, hfg]
    · simp [hp, ih]

theorem find?_updateFirst {p : α → Bool} {f : α → α} {l : List α} {a : α}
    (h : List.find? p l = some a) (hpa : p (f a) = true) :
    List.find? p (updateFirst p f l) = some (f a) := by
  induction l with
  | nil => simp at h
  | cons x xs ih =>
    by_cases hp : p x
    · have hax : a = x := by
        have := List.find?_cons_of_pos (p := p) xs hp
        rw [this] at h
        exact (Option.some_inj.mp h).symm
      subst hax
      simp [updateFirst, hp, List.find?_cons_of_pos, hpa]
    · have hx : List.find? p (x :: xs) = List.find? p xs :=
        List.find?_cons_of_neg (p := p) xs (by simp [hp])
      rw [hx] at h
      simp [updateFirst, hp, List.find?_cons_of_neg, ih h]

theorem updateFirst_updateFirst {p : α → Bool} {f g : α → α} (l : List α)
    (hg : ∀ x, p x = true → p (g x) = true) :
    updateFirst p f (updateFirst p g l) = updateFirst p (fun x => f (g x)) l := by
  induction l with
  | nil => rfl
  | cons x xs ih =>
    by_cases hp : p x
    · simp [updateFirst, hp, hg x hp]
    · simp [updateFirst, hp, ih]

theorem updateFirst_eq_self {p : α → Bool} {f : α → α} {l : List α} {a : α}
    (h : List.find? p l = some a) (hfa : f a = a) :
    updateFirst p f l = l := by
  induction l with
  | nil => simp at h
  | cons x xs ih =>
    by_cases hp : p x
    · have hax : a = x := by
        have := List.find?_cons_of_pos (p := p) xs hp
        rw [this] at h
        exact (Option.some_inj.mp h).symm
      subst hax
      simp [updateFirst, hp, hfa]
    · have hx : List.find? p (x :: xs) = List.find? p xs :=
        List.find?_cons_of_neg (p := p) xs (by simp [hp])
      rw [hx] at h
      simp [updateFirst, hp, ih h]

theorem deleteFirst_sublist (p : α → Bool) (l : List α) :
    List.Sublist (deleteFirst p l) l := by
  induction l with
  | nil => simp [deleteFirst]
  | cons x xs ih =>
    by_cases hp : p x
    · simp only [deleteFirst, hp, if_true]
      exact List.sublist_cons_self x xs
    · simp only [deleteFirst, hp, if_false]
      exact ih.cons₂ x

theorem deleteFirst_append_singleton {p : α → Bool} {l : List α} {a : α}
    (h : List.find? p l = none) (hpa : p a = true) :
    deleteFirst p (l ++ [a]) = l := by
  induction l with
  | nil => simp [deleteFirst, hpa]
  | cons x xs ih =>
    rw [List.find?_eq_none] at h
    have hx : ¬ p x := h x (List.mem_cons_self x xs)
    have hxs : List.find? p xs = none := by
      rw [List.find?_eq_none]
      exact fun b hb => h b (List.mem_cons_of_mem x hb)
    simp [deleteFirst, hx, ih hxs]

theorem find?_append_none {p : α → Bool} {l : List α} (l' : List α)
    (h : List.find? p l = none) :
    List.find? p (l ++ l') = List.find? p l' := by
  induction l with
  | nil => rfl
  | cons x xs ih =>
    rw [List.find?_eq_none] at h
    have hx : ¬ p x := h x (List.mem_cons_self x xs)
    have hxs : List.find? p xs = none := by
      rw [List.find?_eq_none]
      exact fun b hb => h b (List.mem_cons_of_mem x hb)
    simp [List.find?_cons_of_neg, hx, ih hxs]

theorem insertSorted_perm (le : α → α → Bool) (a : α) (l : List α) :
    List.Perm (insertSorted le a l) (a :: l) := by
  induction l with
  | nil => simp [insertSorted]
  | cons b bs ih =>
    by_cases h : le a b
    · simp [insertSorted, h]
    · simp only [insertSorted, h, if_false]
      exact (List.Perm.cons b ih).trans (List.Perm.swap a b bs)

theorem sortBy_perm (le : α → α → Bool) (l : List α) :
    List.Perm (sortBy le l) l := by
  induction l with
  | nil => simp [sortBy]
  | cons a as ih =>
    exact (insertSorted_perm le a (sortBy le as)).trans (List.Perm.cons a ih)

theorem mem_sortTickets {db : DB} {sb so : String} {l : List Ticket} {t : Ticket}
    (h : t ∈ sortTickets db sb so l) : t ∈ l := by
  unfold sortTickets at h
  cases hord : sortOrd db sb with
  | none => rw [hord] at h; exact h
  | some ord =>
    rw [hord] at h
    by_cases hdesc : so == "desc"
    · simp only [hdesc, if_true] at h
      exact (sortBy_perm _ l).mem_iff.mp h
    · simp only [hdesc, if_false] at h
      exact (sortBy_perm _ l).mem_iff.mp h

/-! ### Claim theorems -/

/-- C10: for every actor, filter combination and page, the listing's
`total_count` is the size of the visibility-and-filter-restricted set
before sorting and pagination, and `has_more` is true exactly when
`offset + limit < total_count` (false exactly when `≥`). -/
theorem getTickets_count_hasMore (db : DB) (user_id : Option Nat)
    (user_role : Option UserRole) (status : Option TicketStatus)
    (category_id : Option Nat) (search : Option String)
    (sort_by sort_order : String) (limit offset : Nat) :
    (get_tickets db user_id user_role status category_id search
        sort_by sort_order limit offset).total_count
      = (filteredTickets db user_id user_role status category_id search).length
    ∧ ((get_tickets db user_id user_role status category_id search
        sort_by sort_order limit offset).has_more = true
      ↔ offset + limit < (get_tickets db user_id user_role status category_id
          search sort_by sort_order limit offset).total_count)
    ∧ ((get_tickets db user_id user_role status category_id search
        sort_by sort_order limit offset).has_more = false
      ↔ offset + limit ≥ (get_tickets db user_id user_role status category_id
          search sort_by sort_order limit offset).total_count) := by
  refine ⟨rfl, ?_, ?_⟩
  · simp [get_tickets]
  · simp [get_tickets, Nat.not_lt]

/-- C8: for every existing ticket, `assign_ticket` sets the assignee and
refreshes `updated_at`; when the status is OPEN and the assignee is a
valid (nonzero) id, the status auto-transitions to IN_PROGRESS with no
status-change notification; unassigning (null) never changes the
status. -/
theorem assign_ticket_spec (db : DB) (now tid : Nat) (a : Option Nat)
    (t0 : Ticket) (ht : findTicket db tid = some t0) :
    ∃ db' t', assign_ticket db now tid a = some (db', t')
      ∧ t'.assigned_to_id = a
      ∧ t'.updated_at = now
      ∧ (∀ x, a = some x → 0 < x → t0.status = TicketStatus.OPEN →
          t'.status = TicketStatus.IN_PROGRESS)
      ∧ (a = none → t'.status = t0.status)
      ∧ (t0.status ≠ TicketStatus.OPEN → t'.status = t0.status)
      ∧ db'.notifications = db.notifications
      ∧ db'.tickets = updateFirst (fun t => t.id == tid) (fun _ => t') db.tickets := by
  unfold assign_ticket
  rw [ht]
  simp only []
  by_cases hc : ({ t0 with assigned_to_id := a, updated_at := now } : Ticket).status
      == TicketStatus.OPEN && truthyId a
  · refine ⟨updTicket db tid (fun _ =>
        { t0 with assigned_to_id := a, updated_at := now,
                  status := TicketStatus.IN_PROGRESS }),
      { t0 with assigned_to_id := a, updated_at := now,
                status := TicketStatus.IN_PROGRESS },
      by simp [hc], rfl, rfl, ?_, ?_, ?_, rfl, rfl⟩
    · intro x hx hxpos hopen
      rfl
    · intro ha
      subst ha
      simp [truthyId] at hc
    · intro hne
      exfalso
      simp only [Bool.and_eq_true, beq_iff_eq] at hc
      exact hne hc.1
  · refine ⟨updTicket db tid (fun _ =>
        { t0 with assigned_to_id := a, updated_at := now }),
      { t0 with assigned_to_id := a, updated_at := now },
      by simp [hc], rfl, rfl, ?_, ?_, ?_, rfl, rfl⟩
    · intro x hx hxpos hopen
      exfalso
      subst hx
      apply hc
      simp only [Bool.and_eq_true, beq_iff_eq, truthyId]
      exact ⟨hopen, by simpa using Nat.pos_iff_ne_zero.mp hxpos⟩
    · intro _
      rfl
    · intro _
      rfl

/-- C5: for every existing ticket and status value, `update_ticket_status`
sets the status and refreshes `updated_at`; entering RESOLVED (CLOSED)
stamps `resolved_at` (`closed_at`) to now, re-stamping on every
transition in; set timestamps are never cleared; and the
"status changed" notification to the creator, carrying old and new
status values, is created iff the new status differs from the old. -/
theorem update_ticket_status_spec (db : DB) (now tid : Nat)
    (st : TicketStatus) (t0 : Ticket) (ht : findTicket db tid = some t0) :
    ∃ db' t', update_ticket_status db now tid st = some (db', t')
      ∧ t'.status = st
      ∧ t'.updated_at = now
      ∧ (st = TicketStatus.RESOLVED → t'.resolved_at = some now)
      ∧ (st = TicketStatus.CLOSED → t'.closed_at = some now)
      ∧ (st ≠ TicketStatus.RESOLVED → t'.resolved_at = t0.resolved_at)
      ∧ (st ≠ TicketStatus.CLOSED → t'.closed_at = t0.closed_at)
      ∧ (t0.resolved_at.isSome → t'.resolved_at.isSome)
      ∧ (t0.closed_at.isSome → t'.closed_at.isSome)
      ∧ db'.tickets = updateFirst (fun t => t.id == tid) (fun _ => t') db.tickets
      ∧ (t0.status = st → db'.notifications = db.notifications)
      ∧ (t0.status ≠ st → db'.notifications = db.notifications ++
          [{ id := db.nextId,
             title := "Ticket Status Updated: " ++ t0.subject,
             message := statusChangedMessage t0.status st,
             notification_type := "status_changed", is_read := false,
             is_email_sent := (findUser db t0.created_by_id).isSome,
             user_id := t0.created_by_id, ticket_id := some t0.id,
             created_at := now }]) := by
  unfold update_ticket_status
  rw [ht]
  simp only []
  refine ⟨_, _, rfl, ?_, ?_, ?_, ?_, ?_, ?_, ?_, ?_, ?_, ?_, ?_⟩
  · cases st <;> rfl
  · cases st <;> rfl
  · intro hres; subst hres; rfl
  · intro hcl; subst hcl; rfl
  · intro hne; cases st <;> first | rfl | exact absurd rfl hne
  · intro hne; cases st <;> first | rfl | exact absurd rfl hne
  · intro hs; cases st <;> simp_all
  · intro hs; cases st <;> simp_all
  · by_cases hch : t0.status != st
    · simp only [hch, if_true]
      rfl
    · simp only [hch, if_false]
      rfl
  · intro heq
    have hch : (t0.status != st) = false := by simp [heq]
    simp only [hch, if_false]
    rfl
  · intro hne
    have hch : (t0.status != st) = true := by simp [hne]
    simp only [hch, if_true]
    cases st <;>
      simp [create_status_change_notification, create_notification,
        statusChangedMessage, updTicket, findUser]

/-- C8 witness: concrete instantiation (assigning agent 9 to the open
ticket 1 moves it to IN_PROGRESS). -/
theorem assign_ticket_spec_witness :
    findTicket dbSample 1 = some t1 ∧
    ∃ db' t', assign_ticket dbSample 9 1 (some 9) = some (db', t')
      ∧ t'.assigned_to_id = some 9
      ∧ t'.status = TicketStatus.IN_PROGRESS := by
  obtain ⟨db', t', h1, h2, _, h4, _⟩ :=
    assign_ticket_spec dbSample 9 1 (some 9) t1 (by decide)
  exact ⟨by decide, db', t', h1, h2, h4 9 rfl (by decide) (by decide)⟩

/-- C5 witness: concrete instantiation (resolving ticket 1 stamps
`resolved_at` and notifies creator 8 of open → resolved). -/
theorem update_ticket_status_spec_witness :
    findTicket dbSample 1 = some t1 ∧
    ∃ db' t', update_ticket_status dbSample 9 1 TicketStatus.RESOLVED = some (db', t')
      ∧ t'.status = TicketStatus.RESOLVED
      ∧ t'.resolved_at = some 9
      ∧ db'.notifications = dbSample.notifications ++
          [{ id := dbSample.nextId,
             title := "Ticket Status Updated: " ++ t1.subject,
             message := statusChangedMessage t1.status TicketStatus.RESOLVED,
             notification_type := "status_changed", is_read := false,
             is_email_sent := (findUser dbSample t1.created_by_id).isSome,
             user_id := t1.created_by_id, ticket_id := some t1.id,
             created_at := 9 }] := by
  obtain ⟨db', t', h1, h2, _, h4, _, _, _, _, _, _, _, h12⟩ :=
    update_ticket_status_spec dbSample 9 1 TicketStatus.RESOLVED t1 (by decide)
  exact ⟨by decide, db', t', h1, h2, h4 rfl, h12 (by decide)⟩

/-- C1 counterexample: user 7 is an end user, ticket 1 exists and was
created by user 8, yet user 7's vote on it succeeds — voting is not
restricted to the actor's own tickets. -/
theorem end_user_vote_access_counterexample :
    u7.role = UserRole.END_USER
    ∧ findTicket dbSample 1 = some t1
    ∧ t1.created_by_id ≠ u7.id
    ∧ resultVoteAction (api_vote_ticket dbSample 5 1 7 (some true)) = some "added" := by
  decide

/-- C1 amended: for end_user actors (with a valid nonzero id), listing
returns only their own tickets, fetching another user's ticket reads as
not-found, and commenting is permitted only on their own tickets; but
voting is not access-checked at all — any user may vote on any existing
ticket. -/
theorem end_user_access_policy (db : DB) :
    (∀ uid, uid ≠ 0 →
      ∀ status category_id search sort_by sort_order limit offset,
        ∀ d ∈ (get_tickets db (some uid) (some UserRole.END_USER) status
            category_id search sort_by sort_order limit offset).tickets,
          d.created_by_id = some uid)
    ∧ (∀ tid uid t, get_ticket_by_id db tid (some uid) (some UserRole.END_USER) = some t →
        t.created_by_id = uid)
    ∧ (∀ now tid uid content i r,
        api_add_comment db now tid uid UserRole.END_USER content i = Except.ok r →
        ∃ t, findTicket db tid = some t ∧ t.created_by_id = uid)
    ∧ (∀ now tid uid b t, findTicket db tid = some t →
        (vote_ticket db now tid uid b).isSome = true) := by
  have hfetch : ∀ tid uid t,
      get_ticket_by_id db tid (some uid) (some UserRole.END_USER) = some t →
      findTicket db tid = some t ∧ t.created_by_id = uid := by
    intro tid uid t h
    unfold get_ticket_by_id at h
    cases hft : findTicket db tid with
    | none => rw [hft] at h; exact absurd h (by simp)
    | some t0 =>
      rw [hft] at h
      simp only [beq_self_eq_true, if_true] at h
      by_cases hown : (some t0.created_by_id != some uid) = true
      · rw [if_pos hown] at h; exact absurd h (by simp)
      · rw [if_neg hown] at h
        have ht0 : t0 = t := Option.some_inj.mp h
        subst ht0
        simp only [bne_iff_ne, ne_eq, not_not, Option.some_inj] at hown
        exact ⟨rfl, hown⟩
  refine ⟨?_, ?_, ?_, ?_⟩
  · intro uid huid status category_id search sort_by sort_order limit offset d hd
    unfold get_tickets at hd
    simp only [List.mem_map] at hd
    obtain ⟨t, htmem, rfl⟩ := hd
    have h1 : t ∈ sortTickets db sort_by sort_order
        (filteredTickets db (some uid) (some UserRole.END_USER) status category_id search) :=
      List.drop_subset _ _ (List.take_subset _ _ htmem)
    have h2 : t ∈ filteredTickets db (some uid) (some UserRole.END_USER)
        status category_id search := mem_sortTickets h1
    have h3 : t.created_by_id = uid := by
      unfold filteredTickets at h2
      have hcond : ((some UserRole.END_USER == some UserRole.END_USER)
          && truthyId (some uid)) = true := by
        simp [truthyId, huid]
      rw [hcond] at h2
      simp only [if_true] at h2
      have hvis : t ∈ db.tickets.filter (fun t => some t.created_by_id == some uid) := by
        rcases search with _ | s
        · rcases status with _ | st
          · by_cases hc : truthyId category_id = true
            · rw [hc] at h2; simp only [if_true] at h2
              exact List.filter_subset' _ h2
            · rw [eq_false_of_ne_true hc] at h2; simpa using h2
          · by_cases hc : truthyId category_id = true
            · rw [hc] at h2; simp only [if_true] at h2
              exact List.filter_subset' _ (List.filter_subset' _ h2)
            · rw [eq_false_of_ne_true hc] at h2; simp only [if_false] at h2
              exact List.filter_subset' _ h2
        · have hsub : ∀ l : List Ticket,
              t ∈ (if s.isEmpty then l
                else l.filter (fun t => ilikeContains t.subject s
                  || ilikeContains t.description s)) → t ∈ l := by
            intro l hmem
            by_cases he : s.isEmpty
            · rw [if_pos he] at hmem; exact hmem
            · rw [if_neg he] at hmem; exact List.filter_subset' _ hmem
          have h2' := hsub _ h2
          rcases status with _ | st
          · by_cases hc : truthyId category_id = true
            · rw [hc] at h2'; simp only [if_true] at h2'
              exact List.filter_subset' _ h2'
            · rw [eq_false_of_ne_true hc] at h2'; simpa using h2'
          · by_cases hc : truthyId category_id = true
            · rw [hc] at h2'; simp only [if_true] at h2'
              exact List.filter_subset' _ (List.filter_subset' _ h2')
            · rw [eq_false_of_ne_true hc] at h2'; simp only [if_false] at h2'
              exact List.filter_subset' _ h2'
      have := (List.mem_filter.mp hvis).2
      simpa using this
    simp [Ticket.to_dict, h3]
  · intro tid uid t h
    exact (hfetch tid uid t h).2
  · intro now tid uid content i r h
    unfold api_add_comment at h
    by_cases hc : truthyStr content = true
    · rw [hc] at h
      simp only [Bool.not_true, if_false] at h
      cases hg : get_ticket_by_id db tid (some uid) (some UserRole.END_USER) with
      | none => rw [hg] at h; exact absurd h (by simp)
      | some t0 =>
        obtain ⟨hft, hown⟩ := hfetch tid uid t0 hg
        exact ⟨t0, hft, hown⟩
    · rw [eq_false_of_ne_true hc] at h
      exact absurd h (by simp)
  · intro now tid uid b t h
    unfold vote_ticket
    rw [h]
    rfl

/-- C1 amended witness: concrete instantiation at the fixture state. -/
theorem end_user_access_policy_witness :
    (7 : Nat) ≠ 0
    ∧ findTicket dbSample 1 = some t1
    ∧ (∀ d ∈ (get_tickets dbSample (some 7) (some UserRole.END_USER) none
        none none "updated_at" "desc" 20 0).tickets, d.created_by_id = some 7)
    ∧ (vote_ticket dbSample 5 1 7 true).isSome = true := by
  obtain ⟨hlist, _, _, hvote⟩ := end_user_access_policy dbSample
  exact ⟨by decide, by decide,
    hlist 7 (by decide) none none none "updated_at" "desc" 20 0,
    hvote 5 1 7 true t1 (by decide)⟩

/-- C6 counterexample: ticket 4 was created by end user 7 and carries
the internal comment `c5`; the full payload user 7 receives from the
ticket-detail endpoint contains that internal comment. -/
theorem internal_comment_exposed_counterexample :
    u7.role = UserRole.END_USER
    ∧ t4.created_by_id = u7.id
    ∧ c5.is_internal = true
    ∧ payloadHasInternalComment (api_get_ticket dbSample 4 7 UserRole.END_USER) = true := by
  decide

/-- C6 amended: the full ticket payload returned to an end_user actor
contains the unfiltered comment list (internal comments included);
adding an internal comment, however, never creates a notification. -/
theorem internal_comments_in_payload_no_notification :
    (∀ db tid uid d, api_get_ticket db tid uid UserRole.END_USER = Except.ok d →
      d.comments = some ((ticketComments db tid).map (TicketComment.to_dict db)))
    ∧ (∀ db now tid content aid db' c,
        add_comment db now tid content aid true = some (db', c) →
        db'.notifications = db.notifications ∧ c.is_internal = true) := by
  constructor
  · intro db tid uid d h
    unfold api_get_ticket at h
    cases hg : get_ticket_by_id db tid (some uid) (some UserRole.END_USER) with
    | none => rw [hg] at h; exact absurd h (by simp)
    | some t =>
      rw [hg] at h
      have hd : Ticket.to_dict db t true = d := by
        have := h
        simp only [Except.ok.injEq] at this
        exact this
      have htid : t.id = tid := by
        unfold get_ticket_by_id at hg
        cases hft : findTicket db tid with
        | none => rw [hft] at hg; exact absurd hg (by simp)
        | some t0 =>
          rw [hft] at hg
          have ht0 : t0.id = tid := by
            have hp := List.find?_some hft
            simpa using hp
          simp only [beq_self_eq_true, if_true] at hg
          by_cases hown : (some t0.created_by_id != some uid) = true
          · rw [if_pos hown] at hg; exact absurd hg (by simp)
          · rw [if_neg hown] at hg
            have := Option.some_inj.mp hg
            subst this
            exact ht0
      subst hd
      simp [Ticket.to_dict, htid]
  · intro db now tid content aid db' c h
    unfold add_comment at h
    cases hft : findTicket db tid with
    | none => rw [hft] at h; exact absurd h (by simp)
    | some t0 =>
      rw [hft] at h
      simp only [Option.some_inj, Prod.mk.injEq] at h
      obtain ⟨hdb, hc⟩ := h
      subst hdb
      subst hc
      exact ⟨by simp [create_comment_notification, updTicket], rfl⟩

/-- C6 amended witness: concrete instantiation — agent 2 adds an
internal comment to ticket 1; no notification is created. -/
theorem internal_comments_witness :
    (∃ db' c, add_comment dbSample 6 1 "note" 2 true = some (db', c)
      ∧ db'.notifications = dbSample.notifications ∧ c.is_internal = true)
    ∧ (∃ d, api_get_ticket dbSample 4 7 UserRole.END_USER = Except.ok d
      ∧ d.comments = some ((ticketComments dbSample 4).map (TicketComment.to_dict dbSample))) := by
  obtain ⟨hpayload, hnotif⟩ := internal_comments_in_payload_no_notification
  constructor
  · cases hcall : add_comment dbSample 6 1 "note" 2 true with
    | none => exact absurd hcall (by decide)
    | some r =>
      obtain ⟨db1, c1⟩ := r
      obtain ⟨h1, h2⟩ := hnotif dbSample 6 1 "note" 2 db1 c1 hcall
      exact ⟨db1, c1, rfl, h1, h2⟩
  · exact ⟨Ticket.to_dict dbSample t4 true, by rfl,
      hpayload dbSample 4 7 _ (by rfl)⟩

/-- C7 counterexample: a creation request whose subject and description
are both the empty string is accepted (the endpoint only checks key
presence), producing a ticket with empty subject. -/
theorem create_ticket_accepts_empty_counterexample :
    resultTicketSubject (api_create_ticket dbSample 5
      { subject := some "", description := some "", category_id := some 1,
        priority := none } 7) = some "" := by
  decide

/-- Folding `create_notification` over a user list appends one
notification per user, carrying that user's id, the given type and
ticket reference; tickets are untouched. -/
theorem foldl_create_notification (now : Nat) (title msg ty : String)
    (tk : Option Nat) (users : List User) :
    ∀ db : DB, ∃ batch,
      (users.foldl (fun d u => create_notification d now u.id title msg ty tk)
          db).notifications = db.notifications ++ batch
      ∧ (users.foldl (fun d u => create_notification d now u.id title msg ty tk)
          db).tickets = db.tickets
      ∧ (users.foldl (fun d u => create_notification d now u.id title msg ty tk)
          db).votes = db.votes
      ∧ ∀ u ∈ users, ∃ n ∈ batch, n.user_id = u.id
          ∧ n.notification_type = ty ∧ n.ticket_id = tk := by
  induction users with
  | nil => intro db; exact ⟨[], by simp, rfl, rfl, by simp⟩
  | cons u us ih =>
    intro db
    obtain ⟨batch, hb, ht, hw, hm⟩ := ih (create_notification db now u.id title msg ty tk)
    refine ⟨{ id := db.nextId, title := title, message := msg,
              notification_type := ty, is_read := false,
              is_email_sent := (findUser db u.id).isSome,
              user_id := u.id, ticket_id := tk, created_at := now } :: batch,
      ?_, ?_, ?_, ?_⟩
    · rw [List.foldl_cons, hb]
      simp [create_notification]
    · rw [List.foldl_cons, ht]
      rfl
    · rw [List.foldl_cons, hw]
      rfl
    · intro v hv
      rcases List.mem_cons.mp hv with h | h
      · subst h
        exact ⟨_, List.mem_cons_self _ _, rfl, rfl, rfl⟩
      · obtain ⟨n, hn, hprops⟩ := hm v h
        exact ⟨n, List.mem_cons_of_mem _ hn, hprops⟩

/-- C7 amended: ticket creation rejects requests with a MISSING
subject, description or category key (empty strings are accepted); on
success the new ticket has status OPEN, zero counters and null
`resolved_at`, is appended to the store, and a "ticket created"
notification is created for every active agent and admin. -/
theorem create_ticket_spec :
    (∀ db now req uid,
      (req.subject = none ∨ req.description = none ∨ req.category_id = none) →
      api_create_ticket db now req uid = Except.error "Missing required fields")
    ∧ (∀ (db : DB) (now : Nat) (subject description : String)
        (category_id creator_id : Nat) (priority : TicketPriority),
        (create_ticket db now subject description category_id creator_id
            priority).2.status = TicketStatus.OPEN
        ∧ (create_ticket db now subject description category_id creator_id
            priority).2.upvotes = 0
        ∧ (create_ticket db now subject description category_id creator_id
            priority).2.downvotes = 0
        ∧ (create_ticket db now subject description category_id creator_id
            priority).2.resolved_at = none
        ∧ (create_ticket db now subject description category_id creator_id
            priority).1.tickets = db.tickets ++
              [(create_ticket db now subject description category_id creator_id
                priority).2]
        ∧ ∃ batch,
            (create_ticket db now subject description category_id creator_id
              priority).1.notifications = db.notifications ++ batch
            ∧ ∀ u ∈ db.users,
                (u.role = UserRole.ADMIN ∨ u.role = UserRole.SUPPORT_AGENT) →
                u.is_active = true →
                ∃ n ∈ batch, n.user_id = u.id
                  ∧ n.notification_type = "ticket_created"
                  ∧ n.ticket_id = some (create_ticket db now subject description
                      category_id creator_id priority).2.id) := by
  constructor
  · intro db now req uid hmiss
    unfold api_create_ticket
    rcases hmiss with h | h | h <;> simp [h]
  · intro db now subject description category_id creator_id priority
    refine ⟨rfl, rfl, rfl, rfl, ?_, ?_⟩
    · unfold create_ticket create_ticket_notification
      obtain ⟨batch, _, ht, _, _⟩ := foldl_create_notification now _ _ _ _
        (staffToNotify { db with
          tickets := db.tickets ++ [(create_ticket db now subject description
            category_id creator_id priority).2],
          nextId := db.nextId + 1 }) _
      exact ht
    · unfold create_ticket create_ticket_notification
      obtain ⟨batch, hb, _, _, hm⟩ := foldl_create_notification now _ _ _ _
        (staffToNotify { db with
          tickets := db.tickets ++ [(create_ticket db now subject description
            category_id creator_id priority).2],
          nextId := db.nextId + 1 }) _
      refine ⟨batch, hb, ?_⟩
      intro u hu hrole hactive
      have hustaff : u ∈ staffToNotify { db with
          tickets := db.tickets ++ [(create_ticket db now subject description
            category_id creator_id priority).2],
          nextId := db.nextId + 1 } := by
        unfold staffToNotify
        refine List.mem_filter.mpr ⟨hu, ?_⟩
        rcases hrole with h | h <;> simp [h, hactive]
      exact hm u hustaff

/-- C7 amended witness: concrete instantiation — a request lacking the
subject key is rejected; the scenario ticket initializes as specified. -/
theorem create_ticket_spec_witness :
    api_create_ticket dbSample 5
      { subject := none, description := some "x", category_id := some 1,
        priority := none } 7 = Except.error "Missing required fields"
    ∧ (create_ticket dbSample 5 "Printer down" "broken" 1 7
        TicketPriority.HIGH).2.status = TicketStatus.OPEN
    ∧ (create_ticket dbSample 5 "Printer down" "broken" 1 7
        TicketPriority.HIGH).2.upvotes = 0
    ∧ (create_ticket dbSample 5 "Printer down" "broken" 1 7
        TicketPriority.HIGH).2.downvotes = 0
    ∧ (create_ticket dbSample 5 "Printer down" "broken" 1 7
        TicketPriority.HIGH).2.resolved_at = none := by
  obtain ⟨hmiss, hok⟩ := create_ticket_spec
  obtain ⟨h1, h2, h3, h4, _, _⟩ :=
    hok dbSample 5 "Printer down" "broken" 1 7 TicketPriority.HIGH
  exact ⟨hmiss dbSample 5 _ 7 (Or.inl rfl), h1, h2, h3, h4⟩

/-- `vote_ticket` on a missing ticket returns `None`. -/
theorem vote_ticket_notfound {db : DB} {now tid uid : Nat} {b : Bool}
    (h : findTicket db tid = none) :
    vote_ticket db now tid uid b = none := by
  unfold vote_ticket
  rw [h]

/-- `vote_ticket`, branch "added": no prior vote by this user. -/
theorem vote_ticket_added_eq (now : Nat) (b : Bool) {db : DB}
    {tid uid : Nat} {t0 : Ticket} (ht : findTicket db tid = some t0)
    (hv : findVote db tid uid = none) :
    vote_ticket db now tid uid b = some
      (updTicket
        { db with
          votes := db.votes ++
            [{ id := db.nextId, is_upvote := b, ticket_id := tid,
               user_id := uid, created_at := now, updated_at := now }],
          nextId := db.nextId + 1 }
        tid
        (fun _ => if b then { t0 with upvotes := t0.upvotes + 1 }
          else { t0 with downvotes := t0.downvotes + 1 }),
      { action := "added",
        vote_type := if b then "upvote" else "downvote",
        upvotes := if b then t0.upvotes + 1 else t0.upvotes,
        downvotes := if b then t0.downvotes else t0.downvotes + 1,
        vote_score := (if b then t0.upvotes + 1 else t0.upvotes)
          - (if b then t0.downvotes else t0.downvotes + 1) }) := by
  unfold vote_ticket
  rw [ht, hv]
  cases b <;> rfl

/-- `vote_ticket`, branch "removed": a prior vote of the same polarity
is deleted and the matching counter decremented, floored at 0. -/
theorem vote_ticket_removed_eq (now : Nat) (b : Bool) {db : DB}
    {tid uid : Nat} {t0 : Ticket} {ev : TicketVote}
    (ht : findTicket db tid = some t0)
    (hv : findVote db tid uid = some ev) (hsame : ev.is_upvote = b) :
    vote_ticket db now tid uid b = some
      (updTicket
        { db with
          votes := deleteFirst
            (fun v => v.ticket_id == tid && v.user_id == uid) db.votes }
        tid
        (fun _ => if b then { t0 with upvotes := max 0 (t0.upvotes - 1) }
          else { t0 with downvotes := max 0 (t0.downvotes - 1) }),
      { action := "removed",
        vote_type := if b then "upvote" else "downvote",
        upvotes := if b then max 0 (t0.upvotes - 1) else t0.upvotes,
        downvotes := if b then t0.downvotes else max 0 (t0.downvotes - 1),
        vote_score := (if b then max 0 (t0.upvotes - 1) else t0.upvotes)
          - (if b then t0.downvotes else max 0 (t0.downvotes - 1)) }) := by
  subst hsame
  unfold vote_ticket
  rw [ht, hv]
  obtain ⟨evid, evup, evtid, evuid, evca, evua⟩ := ev
  cases evup <;> rfl

/-- `vote_ticket`, branch "changed": a prior vote of the opposite
polarity is flipped in place; the new counter is incremented, the old
one decremented floored at 0. -/
theorem vote_ticket_changed_eq (now : Nat) (b : Bool) {db : DB}
    {tid uid : Nat} {t0 : Ticket} {ev : TicketVote}
    (ht : findTicket db tid = some t0)
    (hv : findVote db tid uid = some ev) (hdiff : ev.is_upvote ≠ b) :
    vote_ticket db now tid uid b = some
      (updTicket
        { db with
          votes := updateFirst
            (fun v => v.ticket_id == tid && v.user_id == uid)
            (fun v => { v with is_upvote := b, updated_at := now }) db.votes }
        tid
        (fun _ => if b then
            { t0 with upvotes := t0.upvotes + 1,
                      downvotes := max 0 (t0.downvotes - 1) }
          else
            { t0 with downvotes := t0.downvotes + 1,
                      upvotes := max 0 (t0.upvotes - 1) }),
      { action := "changed",
        vote_type := if b then "upvote" else "downvote",
        upvotes := if b then t0.upvotes + 1 else max 0 (t0.upvotes - 1),
        downvotes := if b then max 0 (t0.downvotes - 1) else t0.downvotes + 1,
        vote_score := (if b then t0.upvotes + 1 else max 0 (t0.upvotes - 1))
          - (if b then max 0 (t0.downvotes - 1) else t0.downvotes + 1) }) := by
  unfold vote_ticket
  rw [ht, hv]
  obtain ⟨evid, evup, evtid, evuid, evca, evua⟩ := ev
  cases evup <;> cases b <;> first
    | exact absurd rfl hdiff
    | rfl

/-- C2: `vote_ticket` follows exactly the specified algorithm: absent
ticket → `None`; no existing vote → insert row, increment matching
counter, action "added"; same polarity → delete row, decrement floored
at 0, action "removed"; opposite polarity → flip in place, adjust both
counters, action "changed"; the result carries the resulting counters
and vote score. -/
theorem vote_ticket_algorithm (db : DB) (now tid uid : Nat) (b : Bool) :
    (findTicket db tid = none → vote_ticket db now tid uid b = none)
    ∧ ∀ t0, findTicket db tid = some t0 →
      ((findVote db tid uid = none →
        ∃ db' r, vote_ticket db now tid uid b = some (db', r)
          ∧ r.action = "added"
          ∧ db'.votes = db.votes ++
              [{ id := db.nextId, is_upvote := b, ticket_id := tid,
                 user_id := uid, created_at := now, updated_at := now }]
          ∧ ∃ t', findTicket db' tid = some t'
              ∧ t'.upvotes = (if b then t0.upvotes + 1 else t0.upvotes)
              ∧ t'.downvotes = (if b then t0.downvotes else t0.downvotes + 1)
              ∧ r.upvotes = t'.upvotes ∧ r.downvotes = t'.downvotes
              ∧ r.vote_score = t'.upvotes - t'.downvotes)
      ∧ ∀ ev, findVote db tid uid = some ev →
        ((ev.is_upvote = b →
          ∃ db' r, vote_ticket db now tid uid b = some (db', r)
            ∧ r.action = "removed"
            ∧ db'.votes = deleteFirst
                (fun v => v.ticket_id == tid && v.user_id == uid) db.votes
            ∧ ∃ t', findTicket db' tid = some t'
                ∧ t'.upvotes = (if b then max 0 (t0.upvotes - 1) else t0.upvotes)
                ∧ t'.downvotes = (if b then t0.downvotes else max 0 (t0.downvotes - 1))
                ∧ r.upvotes = t'.upvotes ∧ r.downvotes = t'.downvotes
                ∧ r.vote_score = t'.upvotes - t'.downvotes)
        ∧ (ev.is_upvote ≠ b →
          ∃ db' r, vote_ticket db now tid uid b = some (db', r)
            ∧ r.action = "changed"
            ∧ db'.votes = updateFirst
                (fun v => v.ticket_id == tid && v.user_id == uid)
                (fun v => { v with is_upvote := b, updated_at := now }) db.votes
            ∧ ∃ t', findTicket db' tid = some t'
                ∧ t'.upvotes = (if b then t0.upvotes + 1 else max 0 (t0.upvotes - 1))
                ∧ t'.downvotes = (if b then max 0 (t0.downvotes - 1) else t0.downvotes + 1)
                ∧ r.upvotes = t'.upvotes ∧ r.downvotes = t'.downvotes
                ∧ r.vote_score = t'.upvotes - t'.downvotes))) := by
  refine ⟨fun h => vote_ticket_notfound h, ?_⟩
  intro t0 ht
  have hp0 : (t0.id == tid) = true := by simpa using List.find?_some ht
  refine ⟨?_, ?_⟩
  · intro hv
    refine ⟨_, _, vote_ticket_added_eq now b ht hv, rfl, rfl, ?_⟩
    refine ⟨(if b then { t0 with upvotes := t0.upvotes + 1 }
        else { t0 with downvotes := t0.downvotes + 1 }), ?_, ?_⟩
    · show findTicket _ tid = some _
      unfold findTicket updTicket
      exact find?_updateFirst ht (by cases b <;> simpa using hp0)
    · cases b <;> exact ⟨rfl, rfl, rfl, rfl, rfl⟩
  · intro ev hv
    refine ⟨?_, ?_⟩
    · intro hsame
      refine ⟨_, _, vote_ticket_removed_eq now b ht hv hsame, rfl, rfl, ?_⟩
      refine ⟨(if b then { t0 with upvotes := max 0 (t0.upvotes - 1) }
          else { t0 with downvotes := max 0 (t0.downvotes - 1) }), ?_, ?_⟩
      · show findTicket _ tid = some _
        unfold findTicket updTicket
        exact find?_updateFirst ht (by cases b <;> simpa using hp0)
      · cases b <;> exact ⟨rfl, rfl, rfl, rfl, rfl⟩
    · intro hdiff
      refine ⟨_, _, vote_ticket_changed_eq now b ht hv hdiff, rfl, rfl, ?_⟩
      refine ⟨(if b then
          { t0 with upvotes := t0.upvotes + 1,
                    downvotes := max 0 (t0.downvotes - 1) }
        else
          { t0 with downvotes := t0.downvotes + 1,
                    upvotes := max 0 (t0.upvotes - 1) }), ?_, ?_⟩
      · show findTicket _ tid = some _
        unfold findTicket updTicket
        exact find?_updateFirst ht (by cases b <;> simpa using hp0)
      · cases b <;> exact ⟨rfl, rfl, rfl, rfl, rfl⟩

/-- Membership after replacing the first match by a constant. -/
theorem mem_updateFirst_const {p : α → Bool} {a x : α} {l : List α}
    (h : x ∈ updateFirst p (fun _ => a) l) : x ∈ l ∨ x = a :=
  (mem_updateFirst h).imp id (fun ⟨_, _, hx⟩ => hx)

/-- State shape of a successful `update_ticket_status`: only the matched
ticket row and the notification log change; counters are untouched. -/
theorem update_ticket_status_state {db : DB} {now tid : Nat}
    {st : TicketStatus} {db' : DB} {t' : Ticket}
    (h : update_ticket_status db now tid st = some (db', t')) :
    ∃ t0, findTicket db tid = some t0
      ∧ db'.tickets = updateFirst (fun t => t.id == tid) (fun _ => t') db.tickets
      ∧ db'.votes = db.votes
      ∧ t'.upvotes = t0.upvotes ∧ t'.downvotes = t0.downvotes := by
  unfold update_ticket_status at h
  cases hft : findTicket db tid with
  | none => rw [hft] at h; exact absurd h (by simp)
  | some t0 =>
    rw [hft] at h
    simp only [Option.some_inj, Prod.mk.injEq] at h
    obtain ⟨hdb, ht'⟩ := h
    subst hdb
    refine ⟨t0, rfl, ?_, ?_, ?_, ?_⟩
    · subst ht'
      split <;> rfl
    · subst ht'
      split <;> rfl
    · subst ht'
      (split <;> try split) <;> rfl
    · subst ht'
      (split <;> try split) <;> rfl

/-- State shape of a successful `assign_ticket`. -/
theorem assign_ticket_state {db : DB} {now tid : Nat} {a : Option Nat}
    {db' : DB} {t' : Ticket}
    (h : assign_ticket db now tid a = some (db', t')) :
    ∃ t0, findTicket db tid = some t0
      ∧ db'.tickets = updateFirst (fun t => t.id == tid) (fun _ => t') db.tickets
      ∧ db'.votes = db.votes
      ∧ db'.notifications = db.notifications
      ∧ t'.upvotes = t0.upvotes ∧ t'.downvotes = t0.downvotes := by
  unfold assign_ticket at h
  cases hft : findTicket db tid with
  | none => rw [hft] at h; exact absurd h (by simp)
  | some t0 =>
    rw [hft] at h
    simp only [Option.some_inj, Prod.mk.injEq] at h
    obtain ⟨hdb, ht'⟩ := h
    subst hdb
    refine ⟨t0, rfl, ?_, rfl, rfl, ?_, ?_⟩
    · subst ht'
      rfl
    · subst ht'
      split <;> rfl
    · subst ht'
      split <;> rfl

/-- State shape of a successful `add_comment`: tickets only get their
`updated_at` refreshed; votes are untouched. -/
theorem add_comment_state {db : DB} {now tid : Nat} {content : String}
    {aid : Nat} {i : Bool} {db' : DB} {c : TicketComment}
    (h : add_comment db now tid content aid i = some (db', c)) :
    db'.tickets = updateFirst (fun t => t.id == tid)
        (fun t => { t with updated_at := now }) db.tickets
      ∧ db'.votes = db.votes := by
  unfold add_comment at h
  cases hft : findTicket db tid with
  | none => rw [hft] at h; exact absurd h (by simp)
  | some t0 =>
    rw [hft] at h
    simp only [Option.some_inj, Prod.mk.injEq] at h
    obtain ⟨hdb, hc⟩ := h
    subst hdb
    constructor
    · unfold create_comment_notification create_notification
      split
      · split
        · rfl
        · rfl
      · rfl
    · unfold create_comment_notification create_notification
      split
      · split
        · rfl
        · rfl
      · rfl

/-- State shape of `create_ticket`: the new ticket is appended; votes
are untouched. -/
theorem create_ticket_state (db : DB) (now : Nat) (s d : String)
    (cid uid : Nat) (p : TicketPriority) :
    (create_ticket db now s d cid uid p).1.tickets
        = db.tickets ++ [(create_ticket db now s d cid uid p).2]
      ∧ (create_ticket db now s d cid uid p).1.votes = db.votes := by
  unfold create_ticket create_ticket_notification
  obtain ⟨batch, _, ht, hw, _⟩ := foldl_create_notification now _ _ _ _
    (staffToNotify { db with
      tickets := db.tickets ++ [(create_ticket db now s d cid uid p).2],
      nextId := db.nextId + 1 }) _
  exact ⟨ht, hw⟩

/-- C3: `vote_score` is definitionally `upvotes - downvotes`, and every
core operation that touches the counters — each vote branch, and ticket
creation — keeps both counters non-negative (the remaining operations
do not change them). -/
theorem vote_score_counters_invariant :
    (∀ t : Ticket, t.vote_score = t.upvotes - t.downvotes)
    ∧ (∀ db now tid uid b db' r, countersNonneg db →
        vote_ticket db now tid uid b = some (db', r) → countersNonneg db')
    ∧ (∀ db now s d cid uid p, countersNonneg db →
        countersNonneg (create_ticket db now s d cid uid p).1)
    ∧ (∀ db now tid st db' t', countersNonneg db →
        update_ticket_status db now tid st = some (db', t') → countersNonneg db')
    ∧ (∀ db now tid a db' t', countersNonneg db →
        assign_ticket db now tid a = some (db', t') → countersNonneg db')
    ∧ (∀ db now tid c aid i db' cm, countersNonneg db →
        add_comment db now tid c aid i = some (db', cm) → countersNonneg db') := by
  refine ⟨fun t => rfl, ?_, ?_, ?_, ?_, ?_⟩
  · intro db now tid uid b db' r hInv h
    cases hft : findTicket db tid with
    | none => rw [vote_ticket_notfound hft] at h; exact absurd h (by simp)
    | some t0 =>
      have ht0 := hInv t0 (List.mem_of_find?_eq_some hft)
      cases hfv : findVote db tid uid with
      | none =>
        rw [vote_ticket_added_eq now b hft hfv] at h
        simp only [Option.some_inj, Prod.mk.injEq] at h
        obtain ⟨hdb, _⟩ := h
        subst hdb
        intro t htm
        simp only [updTicket] at htm
        rcases mem_updateFirst_const htm with hmem | rfl
        · exact hInv t hmem
        · obtain ⟨h01, h02⟩ := ht0
          cases b
          · exact ⟨h01, show (0:Int) ≤ t0.downvotes + 1 by omega⟩
          · exact ⟨show (0:Int) ≤ t0.upvotes + 1 by omega, h02⟩
      | some ev =>
        by_cases hsame : ev.is_upvote = b
        · rw [vote_ticket_removed_eq now b hft hfv hsame] at h
          simp only [Option.some_inj, Prod.mk.injEq] at h
          obtain ⟨hdb, _⟩ := h
          subst hdb
          intro t htm
          simp only [updTicket] at htm
          rcases mem_updateFirst_const htm with hmem | rfl
          · exact hInv t hmem
          · cases b
            · exact ⟨ht0.1, le_max_left 0 _⟩
            · exact ⟨le_max_left 0 _, ht0.2⟩
        · rw [vote_ticket_changed_eq now b hft hfv hsame] at h
          simp only [Option.some_inj, Prod.mk.injEq] at h
          obtain ⟨hdb, _⟩ := h
          subst hdb
          intro t htm
          simp only [updTicket] at htm
          rcases mem_updateFirst_const htm with hmem | rfl
          · exact hInv t hmem
          · obtain ⟨h01, h02⟩ := ht0
            cases b
            · exact ⟨le_max_left 0 _, show (0:Int) ≤ t0.downvotes + 1 by omega⟩
            · exact ⟨show (0:Int) ≤ t0.upvotes + 1 by omega, le_max_left 0 _⟩
  · intro db now s d cid uid p hInv
    obtain ⟨ht, _⟩ := create_ticket_state db now s d cid uid p
    intro t htm
    rw [ht] at htm
    rcases List.mem_append.mp htm with hmem | hmem
    · exact hInv t hmem
    · rcases List.mem_singleton.mp hmem with rfl
      exact ⟨le_refl 0, le_refl 0⟩
  · intro db now tid st db' t' hInv h
    obtain ⟨t0, hft, hticks, _, hu, hd⟩ := update_ticket_status_state h
    have ht0 := hInv t0 (List.mem_of_find?_eq_some hft)
    intro t htm
    rw [hticks] at htm
    rcases mem_updateFirst_const htm with hmem | rfl
    · exact hInv t hmem
    · exact ⟨hu ▸ ht0.1, hd ▸ ht0.2⟩
  · intro db now tid a db' t' hInv h
    obtain ⟨t0, hft, hticks, _, _, hu, hd⟩ := assign_ticket_state h
    have ht0 := hInv t0 (List.mem_of_find?_eq_some hft)
    intro t htm
    rw [hticks] at htm
    rcases mem_updateFirst_const htm with hmem | rfl
    · exact hInv t hmem
    · exact ⟨hu ▸ ht0.1, hd ▸ ht0.2⟩
  · intro db now tid c aid i db' cm hInv h
    obtain ⟨hticks, _⟩ := add_comment_state h
    intro t htm
    rw [hticks] at htm
    rcases mem_updateFirst htm with hmem | ⟨x, hx, rfl⟩
    · exact hInv t hmem
    · exact hInv x hx

/-- C3 witness: concrete instantiation at the fixture state. -/
theorem vote_score_counters_invariant_witness :
    t1.vote_score = t1.upvotes - t1.downvotes
    ∧ countersNonneg dbSample
    ∧ ∃ db' r, vote_ticket dbSample 5 1 7 true = some (db', r)
        ∧ countersNonneg db' := by
  obtain ⟨hscore, hvote, _⟩ := vote_score_counters_invariant
  cases hcall : vote_ticket dbSample 5 1 7 true with
  | none => exact absurd hcall (by decide)
  | some pr =>
    obtain ⟨db1, r1⟩ := pr
    exact ⟨hscore t1, by decide, db1, r1, rfl,
      hvote dbSample 5 1 7 true db1 r1 (by decide) hcall⟩

/-- C4: the state type itself does not enforce vote uniqueness (a state
with two rows for one (ticket, user) pair is representable), but the
vote operation's lookup-then-branch logic preserves at-most-one-row per
pair, and no other core operation touches the vote table. -/
theorem vote_uniqueness :
    (∃ db : DB, ¬ oneVotePerPair db)
    ∧ (∀ db now tid uid b db' r, oneVotePerPair db →
        vote_ticket db now tid uid b = some (db', r) → oneVotePerPair db')
    ∧ (∀ db now tid st db' t',
        update_ticket_status db now tid st = some (db', t') → db'.votes = db.votes)
    ∧ (∀ db now tid a db' t',
        assign_ticket db now tid a = some (db', t') → db'.votes = db.votes)
    ∧ (∀ db now tid c aid i db' cm,
        add_comment db now tid c aid i = some (db', cm) → db'.votes = db.votes)
    ∧ (∀ db now s d cid uid p,
        (create_ticket db now s d cid uid p).1.votes = db.votes) := by
  refine ⟨⟨dbDupVotes, by decide⟩, ?_, ?_, ?_, ?_, ?_⟩
  · intro db now tid uid b db' r hInv h
    cases hft : findTicket db tid with
    | none => rw [vote_ticket_notfound hft] at h; exact absurd h (by simp)
    | some t0 =>
      cases hfv : findVote db tid uid with
      | none =>
        rw [vote_ticket_added_eq now b hft hfv] at h
        simp only [Option.some_inj, Prod.mk.injEq] at h
        obtain ⟨hdb, _⟩ := h
        subst hdb
        show (((db.votes ++ [_]).map voteKey)).Nodup
        rw [List.map_append]
        rw [List.nodup_append]
        refine ⟨hInv, by simp, ?_⟩
        intro k hk hk'
        simp only [List.map_cons, List.map_nil, List.mem_singleton] at hk'
        subst hk'
        obtain ⟨v, hvm, hvk⟩ := List.mem_map.mp hk
        have := List.find?_eq_none.mp hfv v hvm
        unfold voteKey at hvk
        apply this
        have h1 : v.ticket_id = tid := congrArg Prod.fst hvk
        have h2 : v.user_id = uid := congrArg Prod.snd hvk
        simp [h1, h2]
      | some ev =>
        by_cases hsame : ev.is_upvote = b
        · rw [vote_ticket_removed_eq now b hft hfv hsame] at h
          simp only [Option.some_inj, Prod.mk.injEq] at h
          obtain ⟨hdb, _⟩ := h
          subst hdb
          show ((deleteFirst _ db.votes).map voteKey).Nodup
          exact ((deleteFirst_sublist _ db.votes).map voteKey).nodup hInv
        · rw [vote_ticket_changed_eq now b hft hfv hsame] at h
          simp only [Option.some_inj, Prod.mk.injEq] at h
          obtain ⟨hdb, _⟩ := h
          subst hdb
          show ((updateFirst _ _ db.votes).map voteKey).Nodup
          rw [map_updateFirst (p := fun v => v.ticket_id == tid && v.user_id == uid)
            (f := fun v => { v with is_upvote := b, updated_at := now })
            voteKey (fun v => rfl) db.votes]
          exact hInv
  · intro db now tid st db' t' h
    exact (update_ticket_status_state h).choose_spec.2.2.1
  · intro db now tid a db' t' h
    exact (assign_ticket_state h).choose_spec.2.2.1
  · intro db now tid c aid i db' cm h
    exact (add_comment_state h).2
  · intro db now s d cid uid p
    exact (create_ticket_state db now s d cid uid p).2

/-- C4 witness: concrete instantiation — the invariant holds at the
fixture state and is preserved by a concrete vote. -/
theorem vote_uniqueness_witness :
    oneVotePerPair dbSample
    ∧ ∃ db' r, vote_ticket dbSample 5 1 7 true = some (db', r)
        ∧ oneVotePerPair db' := by
  obtain ⟨_, hvote, _⟩ := vote_uniqueness
  cases hcall : vote_ticket dbSample 5 1 7 true with
  | none => exact absurd hcall (by decide)
  | some pr =>
    obtain ⟨db1, r1⟩ := pr
    exact ⟨by decide, db1, r1, rfl,
      hvote dbSample 5 1 7 true db1 r1 (by decide) hcall⟩

/-- C9: starting from counters consistent with the vote ledger and no
prior vote by the user, voting the same polarity twice returns
action "removed" on the second call and restores the vote rows and the
ticket store (hence both counters) exactly. -/
theorem double_vote_roundtrip (db : DB) (now1 now2 tid uid : Nat) (b : Bool)
    (t0 : Ticket) (ht : findTicket db tid = some t0)
    (hup : t0.upvotes = countUpvotes db tid)
    (hdown : t0.downvotes = countDownvotes db tid)
    (hnone : findVote db tid uid = none) :
    ∃ db1 r1 db2 r2,
      vote_ticket db now1 tid uid b = some (db1, r1)
      ∧ vote_ticket db1 now2 tid uid b = some (db2, r2)
      ∧ r1.action = "added" ∧ r2.action = "removed"
      ∧ db2.votes = db.votes
      ∧ db2.tickets = db.tickets := by
  have hp0 : (t0.id == tid) = true := by simpa using List.find?_some ht
  have h0up : (0:Int) ≤ t0.upvotes := by
    rw [hup]; exact Int.natCast_nonneg _
  have h0down : (0:Int) ≤ t0.downvotes := by
    rw [hdown]; exact Int.natCast_nonneg _
  cases b
  · have h1 := vote_ticket_added_eq now1 false ht hnone
    have ht1 : findTicket (updTicket
        { db with
          votes := db.votes ++
            [{ id := db.nextId, is_upvote := false, ticket_id := tid,
               user_id := uid, created_at := now1, updated_at := now1 }],
          nextId := db.nextId + 1 }
        tid
        (fun _ => { t0 with downvotes := t0.downvotes + 1 })) tid
        = some { t0 with downvotes := t0.downvotes + 1 } := by
      unfold findTicket updTicket
      exact find?_updateFirst ht hp0
    have hv1 : findVote (updTicket
        { db with
          votes := db.votes ++
            [{ id := db.nextId, is_upvote := false, ticket_id := tid,
               user_id := uid, created_at := now1, updated_at := now1 }],
          nextId := db.nextId + 1 }
        tid
        (fun _ => { t0 with downvotes := t0.downvotes + 1 })) tid uid
        = some { id := db.nextId, is_upvote := false, ticket_id := tid,
                 user_id := uid, created_at := now1, updated_at := now1 } := by
      show List.find? (fun v => v.ticket_id == tid && v.user_id == uid)
        (db.votes ++ [_]) = _
      rw [find?_append_none _ hnone]
      exact List.find?_cons_of_pos _ (by simp)
    have h2 := vote_ticket_removed_eq now2 false ht1 hv1 rfl
    have ht2eq :
        ({ t0 with downvotes := max 0 (t0.downvotes + 1 - 1) } : Ticket) = t0 := by
      have hmax : max 0 (t0.downvotes + 1 - 1) = t0.downvotes := by
        rw [Int.add_sub_cancel]; exact max_eq_right h0down
      rw [hmax]
    refine ⟨_, _, _, _, h1, h2, rfl, rfl, ?_, ?_⟩
    · show deleteFirst (fun v => v.ticket_id == tid && v.user_id == uid)
        (db.votes ++ [_]) = db.votes
      exact deleteFirst_append_singleton hnone (by simp)
    · show updateFirst (fun t => t.id == tid) _
        (updateFirst (fun t => t.id == tid) _ db.tickets) = db.tickets
      rw [updateFirst_updateFirst db.tickets (fun x _ => hp0)]
      exact updateFirst_eq_self ht ht2eq
  · have h1 := vote_ticket_added_eq now1 true ht hnone
    have ht1 : findTicket (updTicket
        { db with
          votes := db.votes ++
            [{ id := db.nextId, is_upvote := true, ticket_id := tid,
               user_id := uid, created_at := now1, updated_at := now1 }],
          nextId := db.nextId + 1 }
        tid
        (fun _ => { t0 with upvotes := t0.upvotes + 1 })) tid
        = some { t0 with upvotes := t0.upvotes + 1 } := by
      unfold findTicket updTicket
      exact find?_updateFirst ht hp0
    have hv1 : findVote (updTicket
        { db with
          votes := db.votes ++
            [{ id := db.nextId, is_upvote := true, ticket_id := tid,
               user_id := uid, created_at := now1, updated_at := now1 }],
          nextId := db.nextId + 1 }
        tid
        (fun _ => { t0 with upvotes := t0.upvotes + 1 })) tid uid
        = some { id := db.nextId, is_upvote := true, ticket_id := tid,
                 user_id := uid, created_at := now1, updated_at := now1 } := by
      show List.find? (fun v => v.ticket_id == tid && v.user_id == uid)
        (db.votes ++ [_]) = _
      rw [find?_append_none _ hnone]
      exact List.find?_cons_of_pos _ (by simp)
    have h2 := vote_ticket_removed_eq now2 true ht1 hv1 rfl
    have ht2eq :
        ({ t0 with upvotes := max 0 (t0.upvotes + 1 - 1) } : Ticket) = t0 := by
      have hmax : max 0 (t0.upvotes + 1 - 1) = t0.upvotes := by
        rw [Int.add_sub_cancel]; exact max_eq_right h0up
      rw [hmax]
    refine ⟨_, _, _, _, h1, h2, rfl, rfl, ?_, ?_⟩
    · show deleteFirst (fun v => v.ticket_id == tid && v.user_id == uid)
        (db.votes ++ [_]) = db.votes
      exact deleteFirst_append_singleton hnone (by simp)
    · show updateFirst (fun t => t.id == tid) _
        (updateFirst (fun t => t.id == tid) _ db.tickets) = db.tickets
      rw [updateFirst_updateFirst db.tickets (fun x _ => hp0)]
      exact updateFirst_eq_self ht ht2eq

/-- C2 witness: concrete instantiation — user 7's first upvote on
ticket 1 takes the "added" branch. -/
theorem vote_ticket_algorithm_witness :
    findTicket dbSample 1 = some t1
    ∧ findVote dbSample 1 7 = none
    ∧ ∃ db' r, vote_ticket dbSample 5 1 7 true = some (db', r)
        ∧ r.action = "added" := by
  obtain ⟨_, halg⟩ := vote_ticket_algorithm dbSample 5 1 7 true
  obtain ⟨hadded, _⟩ := halg t1 (by decide)
  obtain ⟨db', r, h1, h2, _⟩ := hadded (by decide)
  exact ⟨by decide, by decide, db', r, h1, h2⟩

/-- C9 witness: concrete instantiation — upvote twice on ticket 1
restores the fixture state's votes and tickets. -/
theorem double_vote_roundtrip_witness :
    findTicket dbSample 1 = some t1
    ∧ t1.upvotes = countUpvotes dbSample 1
    ∧ t1.downvotes = countDownvotes dbSample 1
    ∧ findVote dbSample 1 7 = none
    ∧ ∃ db1 r1 db2 r2,
        vote_ticket dbSample 5 1 7 true = some (db1, r1)
        ∧ vote_ticket db1 6 1 7 true = some (db2, r2)
        ∧ r2.action = "removed"
        ∧ db2.votes = dbSample.votes
        ∧ db2.tickets = dbSample.tickets := by
  obtain ⟨db1, r1, db2, r2, h1, h2, _, h4, h5, h6⟩ :=
    double_vote_roundtrip dbSample 5 6 1 7 true t1
      (by decide) (by decide) (by decide) (by decide)
  exact ⟨by decide, by decide, by decide, by decide,
    db1, r1, db2, r2, h1, h2, h4, h5, h6⟩

end QuickDesk
